import Mathlib

/-!
Shallow embedding of gslib/commands/cp.py (the gsutil cp/mv command):
the per-item copy worker CopyFunc, the run driver RunCommand, and the
destination-versioning probe.  External collaborators that live in other
gslib modules (the transfer backend PerformCopy, the manifest log, storage
URL parsing, the worker pool Apply) are modelled either as explicit input
parameters of the embedded functions or, where noted on the definition,
from the specification of the external module.

Side effects (manifest writes, backend delete calls, filesystem unlink,
log lines, statistics updates) are recorded as an explicit event trace,
and Python exceptions are an explicit result constructor.
-/

/-- Modelled from the spec: gslib/storage_url.py is an external
collaborator.  A storage URL is either a local file path or a cloud
location with a provider scheme, bucket name, object name and an optional
generation (object version) qualifier. -/
structure StorageUrl where
  isCloud : Bool
  provider : String
  bucket_name : String
  object_name : String
  generation : Option Nat
deriving DecidableEq

def StorageUrl.IsCloudUrl (u : StorageUrl) : Bool := u.isCloud

def StorageUrl.IsFileUrl (u : StorageUrl) : Bool := !u.isCloud

/-- Modelled from the spec: a provider-only URL is a bare provider/root
with no bucket and hence no object path. -/
def StorageUrl.IsProvider (u : StorageUrl) : Bool :=
  u.isCloud && u.bucket_name == ""

/-- Modelled from the spec: a bucket URL names a bucket and no object. -/
def StorageUrl.IsBucket (u : StorageUrl) : Bool :=
  u.isCloud && u.bucket_name != "" && u.object_name == ""

def StorageUrl.HasGeneration (u : StorageUrl) : Bool := u.generation.isSome

/-- Modelled from the spec: rendering of a URL value as its identifier
string (GetUrlString in gslib/storage_url.py, not under src/). -/
def StorageUrl.GetUrlString (u : StorageUrl) : String :=
  if u.isCloud then
    u.provider ++ "://" ++ u.bucket_name ++
      (if u.object_name == "" then "" else "/" ++ u.object_name) ++
      (match u.generation with
       | some g => "#" ++ toString g
       | none => "")
  else u.object_name

/-- Modelled from the spec: ContainsWildcard (gslib/storage_url.py, not
under src/) checks a URL string for shell wildcard characters. -/
def ContainsWildcard (s : String) : Bool :=
  s.any fun c => c == '*' || c == '?' || c == '[' || c == ']'

/-- Modelled from the spec: copy_helper.SrcDstSame (gslib/copy_helper.py,
not under src/) holds when the resolved source and destination
identifiers are identical. -/
def SrcDstSame (src dst : StorageUrl) : Bool :=
  src.GetUrlString == dst.GetUrlString

/-- Result tag written into a manifest entry by CopyFunc:
OK (line 593), skip (lines 598 and 605), error (lines 612 and 616). -/
inductive ResultTag
  | OK
  | skip
  | error
deriving DecidableEq

/-- Prior manifest entries, keyed by expanded source URL string. -/
abbrev ManifestState := List (String × ResultTag)

def manifestLookup (m : ManifestState) (k : String) : Option ResultTag :=
  (m.find? fun p => p.1 == k).map fun p => p.2

/-- Modelled from the spec: Manifest.WasSuccessful (gslib/copy_helper.py,
not under src/) is true when the manifest already records a successful or
skipped outcome for this exact source identifier. -/
def WasSuccessful (m : ManifestState) (k : String) : Bool :=
  match manifestLookup m k with
  | some ResultTag.OK => true
  | some ResultTag.skip => true
  | _ => false

/-- Python exceptions raised by the embedded code. -/
inductive PyError
  | commandException (msg : String)
  | accessDeniedException
  | nameError (varname : String)
  | copyError (msg : String)
deriving DecidableEq

/-- Observable side effects of one run, in program order. -/
inductive Event
  | setRecursionRequested
  | makeDirs (path : String)
  | constructDstUrl (src exp_src : StorageUrl)
  | initManifest (src dst : String)
  | performCopy (src dst : String)
  | setMd5 (src md5 : String)
  | setResult (src : String) (bytes : Nat) (tag : ResultTag) (msg : Option String)
  | logInfo (msg : String)
  | logError (msg : String)
  | incFailureCount
  | setAcl (dst : String)
  | deleteObject (bucket object : String) (generation : Option Nat) (provider : String)
  | unlink (path : String)
  | addStats (elapsed : ℚ) (bytes : Nat)
deriving DecidableEq

/-- How CopyFunc terminates: a normal return, the early return of the
manifest short-circuit (line 542), or a propagating Python exception. -/
inductive CopyResult
  | ok
  | earlyReturn
  | raised (e : PyError)
deriving DecidableEq

structure CopyOutcome where
  events : List Event
  result : CopyResult
deriving DecidableEq

/-- Behaviour of copy_helper.PerformCopy (the transfer backend, an
external collaborator) for one item: a successful transfer with its
elapsed time, byte count, result URL and optional md5; an ItemExistsError
(no-clobber GET found the destination); or some other exception, flagged
with whether copy_helper.IsNoClobberServerException holds for it. -/
inductive BackendOutcome
  | success (elapsed : ℚ) (bytes : Nat) (result_url : StorageUrl) (md5 : Option String)
  | itemExists
  | otherError (isNoClobberServer : Bool) (msg : String)
deriving DecidableEq

/-- The fields of the options tuple read by CopyFunc (built by _ParseOpts,
lines 763-830). -/
structure OptsTuple where
  perform_mv : Bool
  use_manifest : Bool
  no_clobber : Bool
  print_ver : Bool
  canned_acl : Option String
deriving DecidableEq

/-- The per-run attributes of the CpCommand instance that CopyFunc reads. -/
structure SelfState where
  command_name : String
  continue_on_error : Bool
  exp_dst_url : StorageUrl
  have_existing_dst_container : Bool
deriving DecidableEq

/-- One enumerated item as produced by the name expansion iterator
(gslib/name_expansion.py, an external collaborator): the accessors used at
lines 522-530 are carried as fields. -/
structure NameExpansionResult where
  src_url : StorageUrl
  exp_src_url : StorageUrl
  names_container : Bool
  is_multi_src_request : Bool
  have_existing_dst_container : Bool
deriving DecidableEq

/-- Per-item behaviour of the external collaborators consumed by CopyFunc:
the backend outcome of PerformCopy, the destination URL computed by
copy_helper.ConstructDstUrl / FixWindowsNaming, whether
InsistDstUrlNamesContainer accepts the destination, whether
CheckForDirFileConflict raises, whether os.path.exists holds for the
destination path, and the prior manifest contents. -/
structure CopyEnv where
  backend : BackendOutcome
  dst_url : StorageUrl
  insistContainerOk : Bool
  dirFileConflict : Bool
  dst_path_exists : Bool
  manifest : ManifestState
deriving DecidableEq

/-- Lines 619-649 of CopyFunc: the post-try section.  result_url is the
Python local variable, bound only on the successful-transfer path; reading
it unbound raises NameError.  The -v print (619-622), canned-ACL
propagation (624-631), the move-mode source delete (637-645) and the
statistics update (647-649) happen in this order. -/
def cpAfterTry (opts : OptsTuple) (ner : NameExpansionResult) (dst_url : StorageUrl)
    (result_url : Option StorageUrl) (elapsed : ℚ) (bytes : Nat) : CopyOutcome :=
  if opts.print_ver && result_url.isNone then
    ⟨[], CopyResult.raised (PyError.nameError "result_url")⟩
  else
    ⟨(if opts.print_ver then
        (match result_url with
         | some u => [Event.logInfo ("Created: " ++ u.GetUrlString)]
         | none => [])
      else []) ++
     (if opts.canned_acl.isSome then [Event.setAcl dst_url.GetUrlString] else []) ++
     (if opts.perform_mv then
        Event.logInfo ("Removing " ++ ner.exp_src_url.GetUrlString ++ "...") ::
          (if ner.exp_src_url.IsCloudUrl then
             [Event.deleteObject ner.exp_src_url.bucket_name ner.exp_src_url.object_name
                ner.exp_src_url.generation ner.exp_src_url.provider]
           else [Event.unlink ner.exp_src_url.object_name])
      else []) ++
     [Event.addStats elapsed bytes],
     CopyResult.ok⟩

/-- Lines 582-649 of CopyFunc: the try/except around PerformCopy followed
by the post-try section.  elapsed_time and bytes_transferred are
initialised to 0 before the try (line 582), so the exception branches
carry 0/0 into the statistics update. -/
def cpTryBlock (self : SelfState) (opts : OptsTuple) (env : CopyEnv)
    (ner : NameExpansionResult) : CopyOutcome :=
  let srcStr := ner.exp_src_url.GetUrlString
  let dstStr := env.dst_url.GetUrlString
  let evInit : List Event :=
    if opts.use_manifest then [Event.initManifest srcStr dstStr] else []
  match env.backend with
  | BackendOutcome.success elapsed bytes result_url md5 =>
      let evMan : List Event :=
        if opts.use_manifest then
          (match md5 with
           | some m => [Event.setMd5 srcStr m]
           | none => []) ++
          [Event.setResult srcStr bytes ResultTag.OK none]
        else []
      let after := cpAfterTry opts ner env.dst_url (some result_url) elapsed bytes
      ⟨evInit ++ [Event.performCopy srcStr dstStr] ++ evMan ++ after.events, after.result⟩
  | BackendOutcome.itemExists =>
      let msg := "Skipping existing item: " ++ dstStr
      let evs : List Event :=
        [Event.performCopy srcStr dstStr, Event.logInfo msg] ++
        (if opts.use_manifest then [Event.setResult srcStr 0 ResultTag.skip (some msg)] else [])
      let after := cpAfterTry opts ner env.dst_url none 0 0
      ⟨evInit ++ evs ++ after.events, after.result⟩
  | BackendOutcome.otherError noclb msg =>
      if noclb then
        let m := "Rejected (noclobber): " ++ dstStr
        let evs : List Event :=
          [Event.performCopy srcStr dstStr, Event.logInfo m] ++
          (if opts.use_manifest then [Event.setResult srcStr 0 ResultTag.skip (some m)] else [])
        let after := cpAfterTry opts ner env.dst_url none 0 0
        ⟨evInit ++ evs ++ after.events, after.result⟩
      else if self.continue_on_error then
        let m := "Error copying " ++ ner.src_url.GetUrlString ++ ": " ++ msg
        let evs : List Event :=
          [Event.performCopy srcStr dstStr, Event.incFailureCount, Event.logError m] ++
          (if opts.use_manifest then [Event.setResult srcStr 0 ResultTag.error (some m)] else [])
        let after := cpAfterTry opts ner env.dst_url none 0 0
        ⟨evInit ++ evs ++ after.events, after.result⟩
      else
        ⟨evInit ++ [Event.performCopy srcStr dstStr] ++
          (if opts.use_manifest then [Event.setResult srcStr 0 ResultTag.error (some msg)] else []),
         CopyResult.raised (PyError.copyError msg)⟩

/-- Events emitted between the manifest short-circuit and the try block
(lines 544-568): the recursion flag set for a directory move, the local
destination directory auto-creation, and the destination name
resolution call. -/
def preEvents (self : SelfState) (opts : OptsTuple) (env : CopyEnv)
    (ner : NameExpansionResult) : List Event :=
  (if opts.perform_mv && ner.names_container then [Event.setRecursionRequested] else []) ++
  (if self.exp_dst_url.IsFileUrl && !env.dst_path_exists && ner.is_multi_src_request then
     [Event.makeDirs self.exp_dst_url.object_name]
   else []) ++
  [Event.constructDstUrl ner.src_url ner.exp_src_url]

/-- CpCommand.CopyFunc (lines 510-649): the per-item worker, as a function
of the command state, parsed options, external-collaborator behaviour and
the enumerated item. -/
def CopyFunc (self : SelfState) (opts : OptsTuple) (env : CopyEnv)
    (ner : NameExpansionResult) : CopyOutcome :=
  let cmd_name := if opts.perform_mv then "mv" else self.command_name
  if ner.src_url.IsCloudUrl && ner.src_url.IsProvider then
    ⟨[], CopyResult.raised (PyError.commandException
      ("The " ++ cmd_name ++ " command does not allow provider-only source URLs (" ++
        ner.src_url.GetUrlString ++ ")"))⟩
  else if ner.is_multi_src_request && !env.insistContainerOk then
    ⟨[], CopyResult.raised (PyError.commandException
      "Destination URL must name a container for the multiple source form")⟩
  else if opts.use_manifest && WasSuccessful env.manifest ner.exp_src_url.GetUrlString then
    ⟨[], CopyResult.earlyReturn⟩
  else if opts.perform_mv && ner.names_container &&
      ContainsWildcard ner.src_url.GetUrlString then
    ⟨[Event.setRecursionRequested],
     CopyResult.raised (PyError.commandException
       "The mv command disallows naming source directories using wildcards")⟩
  else if env.dirFileConflict then
    ⟨preEvents self opts env ner,
     CopyResult.raised (PyError.commandException "dir-file conflict")⟩
  else if SrcDstSame ner.exp_src_url env.dst_url then
    ⟨preEvents self opts env ner,
     CopyResult.raised (PyError.commandException
       (cmd_name ++ ": " ++ ner.exp_src_url.GetUrlString ++ " and " ++
        env.dst_url.GetUrlString ++ " are the same file - abort."))⟩
  else if env.dst_url.IsCloudUrl && env.dst_url.HasGeneration then
    ⟨preEvents self opts env ner,
     CopyResult.raised (PyError.commandException
       (cmd_name ++ ": a version-specific URL (" ++ env.dst_url.GetUrlString ++
        ") cannot be the destination for gsutil cp - abort."))⟩
  else
    let tb := cpTryBlock self opts env ner
    ⟨preEvents self opts env ner ++ tb.events, tb.result⟩

/-- The shared aggregate run statistics (lines 647-649, 662, 711-714). -/
structure RunTotals where
  total_elapsed_time : ℚ
  total_bytes_transferred : Nat
  copy_failure_count : Nat
deriving DecidableEq

/-- Folding one event into the shared counters: the statistics update at
lines 647-649 (performed under stats_lock) and the failure-count increment
at line 608. -/
def applyEvent (st : RunTotals) : Event → RunTotals
  | Event.addStats e b =>
      { st with total_elapsed_time := st.total_elapsed_time + e,
                total_bytes_transferred := st.total_bytes_transferred + b }
  | Event.incFailureCount =>
      { st with copy_failure_count := st.copy_failure_count + 1 }
  | _ => st

def applyEvents (st : RunTotals) (evs : List Event) : RunTotals :=
  evs.foldl applyEvent st

/-- One unit of work for the pool: an enumerated item together with the
behaviour its external collaborators will exhibit. -/
structure WorkItem where
  ner : NameExpansionResult
  env : CopyEnv
deriving DecidableEq

structure ApplyResult where
  totals : RunTotals
  events : List Event
  failure : Option PyError
deriving DecidableEq

/-- Modelled from the spec: Command.Apply (gslib/command.py, not under
src/) drives the items through the worker pool.  cp.py calls it with
_CopyExceptionHandler and fail_on_error=True (lines 726-727); per the
specification a fatal (non-continue-on-error) per-item failure propagates
and the orchestrator stops scheduling further items, so an exception
escaping CopyFunc ends the loop and is re-raised, while normal and
early-return completions continue with the next item.  Items are
processed in submission order and each item's counter updates are applied
exactly once. -/
def ApplyLoop (self : SelfState) (opts : OptsTuple) :
    List WorkItem → RunTotals → ApplyResult
  | [], st => ⟨st, [], none⟩
  | item :: rest, st =>
      let co := CopyFunc self opts item.env item.ner
      let st1 := applyEvents st co.events
      match co.result with
      | CopyResult.raised e => ⟨st1, co.events, some e⟩
      | CopyResult.ok =>
          let r := ApplyLoop self opts rest st1
          ⟨r.totals, co.events ++ r.events, r.failure⟩
      | CopyResult.earlyReturn =>
          let r := ApplyLoop self opts rest st1
          ⟨r.totals, co.events ++ r.events, r.failure⟩

/-- The versioning configuration carried by an apitools Bucket: none when
the bucket has no versioning record, otherwise the enabled flag. -/
structure BucketInfo where
  versioning : Option Bool
deriving DecidableEq

/-- Behaviour of gsutil_api.GetBucket for the destination bucket (the
storage-service client is an external collaborator). -/
inductive GetBucketOutcome
  | found (b : BucketInfo)
  | accessDenied
  | notFound
  | otherErr (msg : String)
deriving DecidableEq

/-- CpCommand._GetBucketWithVersioningConfig (lines 832-860): for a cloud
bucket destination, fetch its versioning config; AccessDeniedException is
re-raised, NotFoundException and any other exception become
CommandExceptions.  For a non-bucket destination the function falls off
the end and returns None. -/
def GetBucketWithVersioningConfig (exp_dst_url : StorageUrl)
    (probe : GetBucketOutcome) : Except PyError (Option BucketInfo) :=
  if exp_dst_url.IsCloudUrl && exp_dst_url.IsBucket then
    match probe with
    | GetBucketOutcome.found b => Except.ok (some b)
    | GetBucketOutcome.accessDenied => Except.error PyError.accessDeniedException
    | GetBucketOutcome.notFound =>
        Except.error (PyError.commandException
          ("Destination bucket " ++ exp_dst_url.GetUrlString ++ " does not exist."))
    | GetBucketOutcome.otherErr m =>
        Except.error (PyError.commandException
          ("Error retrieving destination bucket " ++ exp_dst_url.GetUrlString ++ ": " ++ m))
  else Except.ok none

/-- Lines 683-698 of RunCommand: all_versions starts False, is set True
when the destination bucket reports versioning enabled, and the
AccessDeniedException from the probe is caught and also yields True; any
other exception from the probe propagates. -/
def computeAllVersions (exp_dst_url : StorageUrl) (probe : GetBucketOutcome) :
    Except PyError Bool :=
  match GetBucketWithVersioningConfig exp_dst_url probe with
  | Except.ok (some b) => Except.ok (b.versioning == some true)
  | Except.ok none => Except.ok false
  | Except.error PyError.accessDeniedException => Except.ok true
  | Except.error e => Except.error e

/-- The aggregate-failure message raised at lines 754-759. -/
def failMessage (k : Nat) : String :=
  toString k ++ (" file" ++ (if 1 < k then "s" else "") ++ "/object" ++
    (if 1 < k then "s" else "") ++ " could not be transferred.")

/-- Lines 737-740: the throughput division raises ZeroDivisionError
exactly when the elapsed time is zero, in which case total_elapsed_time is
replaced by 0.01. -/
def fixupElapsed (t : ℚ) : ℚ := if t = 0 then 1 / 100 else t

/-- How the run terminates: the status-0 return at line 761, or a
propagating exception. -/
inductive RunOutcome
  | ok (status : Nat)
  | error (e : PyError)
deriving DecidableEq

structure RunResult where
  totals : RunTotals
  events : List Event
  outcome : RunOutcome
deriving DecidableEq

/-- CpCommand.RunCommand (lines 653-761) for an ordinary copy invocation
(no streaming cat and no -I stdin mode): counters start at zero, the
destination versioning probe runs before enumeration (errors propagate
out), the items are driven through the pool, total_elapsed_time is then
overwritten with the wall-clock duration end_time - start_time (line 732)
and patched to 0.01 when the throughput division hits zero, and finally
either CommandException with the aggregate failure count is raised or
status 0 is returned. -/
def RunCommand (self : SelfState) (opts : OptsTuple) (probe : GetBucketOutcome)
    (items : List WorkItem) (wallClock : ℚ) : RunResult :=
  let st0 : RunTotals := ⟨0, 0, 0⟩
  match computeAllVersions self.exp_dst_url probe with
  | Except.error e => ⟨st0, [], RunOutcome.error e⟩
  | Except.ok _ =>
      let r := ApplyLoop self opts items st0
      match r.failure with
      | some e => ⟨r.totals, r.events, RunOutcome.error e⟩
      | none =>
          let st := { r.totals with total_elapsed_time := fixupElapsed wallClock }
          if st.copy_failure_count ≠ 0 then
            ⟨st, r.events, RunOutcome.error (PyError.commandException
              (failMessage st.copy_failure_count))⟩
          else
            ⟨st, r.events, RunOutcome.ok 0⟩

def eventElapsed : Event → ℚ
  | Event.addStats e _ => e
  | _ => 0

def eventBytes : Event → Nat
  | Event.addStats _ b => b
  | _ => 0

def eventFails : Event → Nat
  | Event.incFailureCount => 1
  | _ => 0

def itemEvents (self : SelfState) (opts : OptsTuple) (item : WorkItem) : List Event :=
  (CopyFunc self opts item.env item.ner).events

def eventsOfItems (self : SelfState) (opts : OptsTuple) : List WorkItem → List Event
  | [] => []
  | item :: rest => itemEvents self opts item ++ eventsOfItems self opts rest

/-- Per-item elapsed time as produced by the transfer backend (zero when
the backend raised, since line 582 pre-initialises elapsed_time to 0). -/
def backendElapsed : BackendOutcome → ℚ
  | BackendOutcome.success e _ _ _ => e
  | _ => 0

/-- Per-item transferred bytes as produced by the transfer backend (zero
when the backend raised, since line 582 pre-initialises
bytes_transferred to 0). -/
def backendBytes : BackendOutcome → Nat
  | BackendOutcome.success _ b _ _ => b
  | _ => 0

/-- The conditions under which CopyFunc reaches the try block around
PerformCopy for a given item: none of the guard rejections at lines
532-580 fires and the manifest does not short-circuit at line 542. -/
abbrev GuardsHold (opts : OptsTuple) (item : WorkItem) : Prop :=
  (item.ner.src_url.IsCloudUrl && item.ner.src_url.IsProvider) = false ∧
  (item.ner.is_multi_src_request && !item.env.insistContainerOk) = false ∧
  (opts.use_manifest && WasSuccessful item.env.manifest item.ner.exp_src_url.GetUrlString) = false ∧
  (opts.perform_mv && item.ner.names_container && ContainsWildcard item.ner.src_url.GetUrlString) = false ∧
  item.env.dirFileConflict = false ∧
  SrcDstSame item.ner.exp_src_url item.env.dst_url = false ∧
  (item.env.dst_url.IsCloudUrl && item.env.dst_url.HasGeneration) = false

def isOkB : Except PyError Bool → Bool
  | Except.ok _ => true
  | Except.error _ => false

/-- Sum of the per-item elapsed values produced by the transfer backend. -/
def itemBackendElapsedSum (items : List WorkItem) : ℚ :=
  (items.map fun i => backendElapsed i.env.backend).sum

/-- Sum of the per-item byte counts produced by the transfer backend. -/
def itemBackendBytesSum (items : List WorkItem) : Nat :=
  (items.map fun i => backendBytes i.env.backend).sum

/-- A versionless cloud URL, for concrete test inputs. -/
def gsUrl (bucket object : String) : StorageUrl := ⟨true, "gs", bucket, object, none⟩

/-- Concrete inputs for the evaluation of claim C1: gsutil cp -M -n (move
with no-clobber), source gs://b/o, destination gs://db/o already present
so that PerformCopy raises ItemExistsError. -/
def c1_self : SelfState := ⟨"cp", false, gsUrl "db" "", true⟩

def c1_opts : OptsTuple := ⟨true, true, true, false, none⟩

def c1_ner : NameExpansionResult := ⟨gsUrl "b" "o", gsUrl "b" "o", false, false, false⟩

def c1_env : CopyEnv := ⟨BackendOutcome.itemExists, gsUrl "db" "o", true, false, true, []⟩

/-- Concrete inputs for the witness of claim C2: a manifest run over
source gs://b/o with destination gs://db/o. -/
def c2_self : SelfState := ⟨"cp", false, gsUrl "db" "", true⟩

def c2_opts : OptsTuple := ⟨false, true, false, false, none⟩

def c2_ner : NameExpansionResult := ⟨gsUrl "b" "o", gsUrl "b" "o", false, false, false⟩

def c2_env_done : CopyEnv :=
  ⟨BackendOutcome.success 1 1 (gsUrl "db" "o") none, gsUrl "db" "o", true, false, true,
   [("gs://b/o", ResultTag.OK)]⟩

def c2_env_failed : CopyEnv :=
  ⟨BackendOutcome.success 1 1 (gsUrl "db" "o") none, gsUrl "db" "o", true, false, true,
   [("gs://b/o", ResultTag.error)]⟩

/-- Concrete inputs for claim C3: a failing transfer of gs://b/o under
continue-on-error; the counterexample variant adds -v. -/
def c3_self : SelfState := ⟨"cp", true, gsUrl "db" "", true⟩

def c3_opts_v : OptsTuple := ⟨false, false, false, true, none⟩

def c3_opts : OptsTuple := ⟨false, true, false, false, none⟩

def c3_ner : NameExpansionResult := ⟨gsUrl "b" "o", gsUrl "b" "o", false, false, false⟩

def c3_env_err : CopyEnv :=
  ⟨BackendOutcome.otherError false "network error", gsUrl "db" "o", true, false, true, []⟩

def c3_item2 : WorkItem :=
  ⟨⟨gsUrl "b" "p", gsUrl "b" "p", false, false, false⟩,
   ⟨BackendOutcome.success 1 1 (gsUrl "db" "p") none, gsUrl "db" "p", true, false, true, []⟩⟩

/-- Concrete inputs for the witness of claim C4. -/
def c4_self : SelfState := ⟨"cp", false, gsUrl "db" "", true⟩

def c4_self_cont : SelfState := ⟨"cp", true, gsUrl "db" "", true⟩

def c4_opts : OptsTuple := ⟨false, false, false, false, none⟩

def c4_probe : GetBucketOutcome := GetBucketOutcome.found ⟨none⟩

def c4_item : WorkItem :=
  ⟨⟨gsUrl "b" "o", gsUrl "b" "o", false, false, false⟩,
   ⟨BackendOutcome.otherError false "boom", gsUrl "db" "o", true, false, true, []⟩⟩

/-- Concrete inputs for claim C5: one successful item whose backend
reports 5 seconds elapsed and 10 bytes, in a run whose wall-clock
duration is 3 seconds. -/
def c5_self : SelfState := ⟨"cp", false, gsUrl "db" "", true⟩

def c5_opts : OptsTuple := ⟨false, false, false, false, none⟩

def c5_probe : GetBucketOutcome := GetBucketOutcome.found ⟨none⟩

def c5_item : WorkItem :=
  ⟨⟨gsUrl "b" "o", gsUrl "b" "o", false, false, false⟩,
   ⟨BackendOutcome.success 5 10 (gsUrl "db" "o") none, gsUrl "db" "o", true, false, true, []⟩⟩

/-- Concrete inputs for the witness of claim C6. -/
def c6_bucket_url : StorageUrl := gsUrl "db" ""

/-- Concrete inputs for the witness of claim C7. -/
def c7_self : SelfState := ⟨"cp", false, gsUrl "db" "", true⟩

def c7_opts : OptsTuple := ⟨false, false, false, false, none⟩

def c7_probe : GetBucketOutcome := GetBucketOutcome.found ⟨none⟩

/-- Concrete inputs for the witness of claim C8: destination identical to
the expanded source. -/
def c8_self : SelfState := ⟨"cp", false, gsUrl "b" "", true⟩

def c8_opts : OptsTuple := ⟨false, false, false, false, none⟩

def c8_ner : NameExpansionResult := ⟨gsUrl "b" "o", gsUrl "b" "o", false, false, false⟩

def c8_env : CopyEnv :=
  ⟨BackendOutcome.success 1 1 (gsUrl "b" "o") none, gsUrl "b" "o", true, false, true, []⟩

/-- Concrete inputs for claim C9: the first work item has the bare
provider-only source URL gs://, the second is an ordinary valid item. -/
def c9_self : SelfState := ⟨"cp", false, gsUrl "db" "", true⟩

def c9_opts : OptsTuple := ⟨false, false, false, false, none⟩

def c9_src1 : StorageUrl := gsUrl "" ""

def c9_item1 : WorkItem :=
  ⟨⟨c9_src1, c9_src1, false, false, false⟩,
   ⟨BackendOutcome.success 1 1 (gsUrl "db" "o") none, gsUrl "db" "o", true, false, true, []⟩⟩

def c9_item2 : WorkItem :=
  ⟨⟨gsUrl "b" "p", gsUrl "b" "p", false, false, false⟩,
   ⟨BackendOutcome.success 1 1 (gsUrl "db" "p") none, gsUrl "db" "p", true, false, true, []⟩⟩

/-- Concrete inputs for the witness of claim C10: gsutil cp -n -v where
the destination already exists. -/
def c10_self : SelfState := ⟨"cp", false, gsUrl "db" "", true⟩

def c10_opts : OptsTuple := ⟨false, false, true, true, none⟩

def c10_ner : NameExpansionResult := ⟨gsUrl "b" "o", gsUrl "b" "o", false, false, false⟩

def c10_env : CopyEnv := ⟨BackendOutcome.itemExists, gsUrl "db" "o", true, false, true, []⟩


/-- A variant of the C3 command state with continue-on-error disabled. -/
def c3_self_nc : SelfState := ⟨"cp", false, gsUrl "db" "", true⟩

theorem applyEvents_fields (evs : List Event) (st : RunTotals) :
    applyEvents st evs =
      ⟨st.total_elapsed_time + (evs.map eventElapsed).sum,
       st.total_bytes_transferred + (evs.map eventBytes).sum,
       st.copy_failure_count + (evs.map eventFails).sum⟩ := by
  induction evs generalizing st with
  | nil => cases st; simp [applyEvents]
  | cons e evs ih =>
      have hstep : applyEvents st (e :: evs) = applyEvents (applyEvent st e) evs := rfl
      rw [hstep, ih]
      cases e <;> cases st <;>
        simp [applyEvent, eventElapsed, eventBytes, eventFails, add_assoc]

theorem applyEvents_append (st : RunTotals) (a b : List Event) :
    applyEvents st (a ++ b) = applyEvents (applyEvents st a) b := by
  simp [applyEvents, List.foldl_append]

theorem ApplyLoop_drained (self : SelfState) (opts : OptsTuple)
    (items : List WorkItem) (st : RunTotals)
    (h : (ApplyLoop self opts items st).failure = none) :
    ApplyLoop self opts items st =
      ⟨applyEvents st (eventsOfItems self opts items),
       eventsOfItems self opts items, none⟩ := by
  induction items generalizing st with
  | nil => simp [ApplyLoop, eventsOfItems, applyEvents]
  | cons item rest ih =>
      simp only [ApplyLoop] at h ⊢
      cases hres : (CopyFunc self opts item.env item.ner).result with
      | raised e => rw [hres] at h; simp at h
      | ok =>
          rw [hres] at h
          dsimp only at h ⊢
          rw [ih _ h]
          simp [eventsOfItems, itemEvents, applyEvents_append]
      | earlyReturn =>
          rw [hres] at h
          dsimp only at h ⊢
          rw [ih _ h]
          simp [eventsOfItems, itemEvents, applyEvents_append]

theorem CopyFunc_reaches_try (self : SelfState) (opts : OptsTuple) (env : CopyEnv)
    (ner : NameExpansionResult)
    (h1 : (ner.src_url.IsCloudUrl && ner.src_url.IsProvider) = false)
    (h2 : (ner.is_multi_src_request && !env.insistContainerOk) = false)
    (h3 : (opts.use_manifest && WasSuccessful env.manifest ner.exp_src_url.GetUrlString) = false)
    (h4 : (opts.perform_mv && ner.names_container && ContainsWildcard ner.src_url.GetUrlString) = false)
    (h5 : env.dirFileConflict = false)
    (h6 : SrcDstSame ner.exp_src_url env.dst_url = false)
    (h7 : (env.dst_url.IsCloudUrl && env.dst_url.HasGeneration) = false) :
    CopyFunc self opts env ner =
      ⟨preEvents self opts env ner ++ (cpTryBlock self opts env ner).events,
       (cpTryBlock self opts env ner).result⟩ := by
  unfold CopyFunc
  simp [h1, h2, h3, h4, h5, h6, h7]

theorem preEvents_bytes (self : SelfState) (opts : OptsTuple) (env : CopyEnv)
    (ner : NameExpansionResult) :
    ((preEvents self opts env ner).map eventBytes).sum = 0 := by
  unfold preEvents
  split_ifs <;> simp [eventBytes]

theorem preEvents_elapsed (self : SelfState) (opts : OptsTuple) (env : CopyEnv)
    (ner : NameExpansionResult) :
    ((preEvents self opts env ner).map eventElapsed).sum = 0 := by
  unfold preEvents
  split_ifs <;> simp [eventElapsed]

set_option maxHeartbeats 1600000 in
theorem cpTryBlock_stats (self : SelfState) (opts : OptsTuple) (env : CopyEnv)
    (ner : NameExpansionResult)
    (hok : (cpTryBlock self opts env ner).result = CopyResult.ok) :
    ((cpTryBlock self opts env ner).events.map eventBytes).sum = backendBytes env.backend ∧
    ((cpTryBlock self opts env ner).events.map eventElapsed).sum = backendElapsed env.backend := by
  obtain ⟨bk, dstu, ins, dfc, dpe, man⟩ := env
  obtain ⟨mv, manif, noclob, pv, acl⟩ := opts
  cases bk with
  | success e b u m =>
      simp only [cpTryBlock, cpAfterTry, Option.isNone] at hok ⊢
      cases m <;> cases mv <;> cases manif <;> cases pv <;>
        simp_all [backendBytes, backendElapsed, eventBytes, eventElapsed] <;>
        split_ifs <;> simp [eventBytes, eventElapsed]
  | itemExists =>
      simp only [cpTryBlock, cpAfterTry, Option.isNone] at hok ⊢
      cases mv <;> cases manif <;> cases pv <;>
        simp_all [backendBytes, backendElapsed, eventBytes, eventElapsed] <;>
        split_ifs <;> simp [eventBytes, eventElapsed]
  | otherError noclb msg =>
      cases noclb <;>
        simp only [cpTryBlock, cpAfterTry, Option.isNone] at hok ⊢ <;>
        cases mv <;> cases manif <;> cases pv <;>
        simp_all [backendBytes, backendElapsed, eventBytes, eventElapsed] <;>
        split_ifs <;> simp [eventBytes, eventElapsed]

theorem CopyFunc_stats (self : SelfState) (opts : OptsTuple) (env : CopyEnv)
    (ner : NameExpansionResult)
    (h1 : (ner.src_url.IsCloudUrl && ner.src_url.IsProvider) = false)
    (h2 : (ner.is_multi_src_request && !env.insistContainerOk) = false)
    (h3 : (opts.use_manifest && WasSuccessful env.manifest ner.exp_src_url.GetUrlString) = false)
    (h4 : (opts.perform_mv && ner.names_container && ContainsWildcard ner.src_url.GetUrlString) = false)
    (h5 : env.dirFileConflict = false)
    (h6 : SrcDstSame ner.exp_src_url env.dst_url = false)
    (h7 : (env.dst_url.IsCloudUrl && env.dst_url.HasGeneration) = false)
    (hok : (CopyFunc self opts env ner).result = CopyResult.ok) :
    ((CopyFunc self opts env ner).events.map eventBytes).sum = backendBytes env.backend ∧
    ((CopyFunc self opts env ner).events.map eventElapsed).sum = backendElapsed env.backend := by
  rw [CopyFunc_reaches_try self opts env ner h1 h2 h3 h4 h5 h6 h7] at hok ⊢
  dsimp only at hok ⊢
  obtain ⟨hb, he⟩ := cpTryBlock_stats self opts env ner hok
  constructor <;>
    simp [List.map_append, List.sum_append, preEvents_bytes, preEvents_elapsed, hb, he]

theorem preEvents_no_performCopy (self : SelfState) (opts : OptsTuple) (env : CopyEnv)
    (ner : NameExpansionResult) (s d : String) :
    Event.performCopy s d ∉ preEvents self opts env ner := by
  unfold preEvents
  split_ifs <;> simp

theorem ApplyLoop_all_ok (self : SelfState) (opts : OptsTuple)
    (items : List WorkItem) (st : RunTotals)
    (h : ∀ item ∈ items, (CopyFunc self opts item.env item.ner).result = CopyResult.ok) :
    (ApplyLoop self opts items st).failure = none := by
  induction items generalizing st with
  | nil => simp [ApplyLoop]
  | cons i rest ih =>
      simp only [ApplyLoop]
      rw [h i (by simp)]
      dsimp only
      exact ih _ fun j hj => h j (by simp [hj])

theorem RunCommand_drained (self : SelfState) (opts : OptsTuple)
    (probe : GetBucketOutcome) (items : List WorkItem) (wallClock : ℚ)
    (hprobe : isOkB (computeAllVersions self.exp_dst_url probe) = true)
    (hfail : (ApplyLoop self opts items ⟨0, 0, 0⟩).failure = none) :
    RunCommand self opts probe items wallClock =
      ⟨{ applyEvents ⟨0, 0, 0⟩ (eventsOfItems self opts items) with
           total_elapsed_time := fixupElapsed wallClock },
       eventsOfItems self opts items,
       if (applyEvents ⟨0, 0, 0⟩ (eventsOfItems self opts items)).copy_failure_count ≠ 0 then
         RunOutcome.error (PyError.commandException
           (failMessage (applyEvents ⟨0, 0, 0⟩
             (eventsOfItems self opts items)).copy_failure_count))
       else RunOutcome.ok 0⟩ := by
  unfold RunCommand
  cases hc : computeAllVersions self.exp_dst_url probe with
  | error e => rw [hc] at hprobe; simp [isOkB] at hprobe
  | ok b =>
      dsimp only
      rw [ApplyLoop_drained self opts items _ hfail]
      dsimp only
      split_ifs <;> rfl

theorem eventsOfItems_stats (self : SelfState) (opts : OptsTuple)
    (items : List WorkItem)
    (h : ∀ item ∈ items, GuardsHold opts item ∧
      (CopyFunc self opts item.env item.ner).result = CopyResult.ok) :
    ((eventsOfItems self opts items).map eventBytes).sum = itemBackendBytesSum items ∧
    ((eventsOfItems self opts items).map eventElapsed).sum = itemBackendElapsedSum items := by
  induction items with
  | nil => simp [eventsOfItems, itemBackendBytesSum, itemBackendElapsedSum]
  | cons i rest ih =>
      obtain ⟨⟨h1, h2, h3, h4, h5, h6, h7⟩, hok⟩ := h i (by simp)
      obtain ⟨hb, he⟩ := CopyFunc_stats self opts i.env i.ner h1 h2 h3 h4 h5 h6 h7 hok
      obtain ⟨ihb, ihe⟩ := ih fun j hj => h j (by simp [hj])
      constructor <;>
        simp [eventsOfItems, itemEvents, itemBackendBytesSum, itemBackendElapsedSum,
          List.map_append, List.sum_append, hb, he] <;>
        simp [itemBackendBytesSum, itemBackendElapsedSum] at ihb ihe <;>
        first
          | exact ihb
          | exact ihe

/-- C1: evaluation at the failing input.  Running move mode with
no-clobber (cp -M -n), the backend raises ItemExistsError for gs://b/o,
so the outcome is Skipped and a skip entry is recorded in the manifest;
yet CopyFunc completes normally and still emits the backend delete of the
source object, because the delete at lines 637-645 is unconditional (the
TODO at lines 633-636 acknowledges the missing skip guard).  This
contradicts the claim that a Skipped item never has its source deleted. -/
theorem cp_c1_skipped_source_deleted :
    (CopyFunc c1_self c1_opts c1_env c1_ner).result = CopyResult.ok ∧
    Event.setResult "gs://b/o" 0 ResultTag.skip
        (some "Skipping existing item: gs://db/o") ∈
      (CopyFunc c1_self c1_opts c1_env c1_ner).events ∧
    Event.deleteObject "b" "o" none "gs" ∈
      (CopyFunc c1_self c1_opts c1_env c1_ner).events := by
  decide

/-- C2: with a manifest in use, an item whose expanded source URL already
has a Success or Skip entry returns early with no events at all (in
particular the backend is never invoked), and an item with no entry or a
prior Failed entry that passes the guard checks does invoke the backend
(a performCopy event occurs). -/
theorem cp_c2_manifest_short_circuit (self : SelfState) (opts : OptsTuple)
    (env : CopyEnv) (ner : NameExpansionResult)
    (h1 : (ner.src_url.IsCloudUrl && ner.src_url.IsProvider) = false)
    (h2 : (ner.is_multi_src_request && !env.insistContainerOk) = false) :
    ((opts.use_manifest && WasSuccessful env.manifest ner.exp_src_url.GetUrlString) = true →
      CopyFunc self opts env ner = ⟨[], CopyResult.earlyReturn⟩) ∧
    ((opts.use_manifest && WasSuccessful env.manifest ner.exp_src_url.GetUrlString) = false →
      (opts.perform_mv && ner.names_container && ContainsWildcard ner.src_url.GetUrlString) = false →
      env.dirFileConflict = false →
      SrcDstSame ner.exp_src_url env.dst_url = false →
      (env.dst_url.IsCloudUrl && env.dst_url.HasGeneration) = false →
      Event.performCopy ner.exp_src_url.GetUrlString env.dst_url.GetUrlString ∈
        (CopyFunc self opts env ner).events) := by
  constructor
  · intro h3
    simp [CopyFunc, h1, h2, h3]
  · intro h3 h4 h5 h6 h7
    rw [CopyFunc_reaches_try self opts env ner h1 h2 h3 h4 h5 h6 h7]
    dsimp only
    rw [List.mem_append]
    right
    cases hb : env.backend with
    | success e b u m => simp [cpTryBlock, hb]
    | itemExists => simp [cpTryBlock, hb]
    | otherError noclb msg =>
        cases noclb <;> by_cases hco : self.continue_on_error = true <;>
          simp [cpTryBlock, hb, hco]

/-- C2 witness: with a prior OK entry for gs://b/o the item produces no
events and returns early; with a prior error entry it reaches the
backend. -/
theorem cp_c2_manifest_short_circuit_witness :
    CopyFunc c2_self c2_opts c2_env_done c2_ner = ⟨[], CopyResult.earlyReturn⟩ ∧
    Event.performCopy "gs://b/o" "gs://db/o" ∈
      (CopyFunc c2_self c2_opts c2_env_failed c2_ner).events := by
  constructor
  · exact (cp_c2_manifest_short_circuit c2_self c2_opts c2_env_done c2_ner
      (by decide) (by decide)).1 (by decide)
  · exact (cp_c2_manifest_short_circuit c2_self c2_opts c2_env_failed c2_ner
      (by decide) (by decide)).2 (by decide) (by decide) (by decide) (by decide) (by decide)

/-- C8: when the resolved source and destination identifiers are
identical, or the resolved destination is a cloud URL with a generation
qualifier, the item terminates with a CommandException and no performCopy
event ever occurs (the transfer backend is not invoked), provided the
manifest does not short-circuit the item first. -/
theorem cp_c8_identity_or_versioned_dst_rejected (self : SelfState) (opts : OptsTuple)
    (env : CopyEnv) (ner : NameExpansionResult)
    (hman : (opts.use_manifest && WasSuccessful env.manifest ner.exp_src_url.GetUrlString) = false)
    (hcond : SrcDstSame ner.exp_src_url env.dst_url = true ∨
      (env.dst_url.IsCloudUrl && env.dst_url.HasGeneration) = true) :
    (∃ m, (CopyFunc self opts env ner).result =
      CopyResult.raised (PyError.commandException m)) ∧
    ∀ s d, Event.performCopy s d ∉ (CopyFunc self opts env ner).events := by
  have hpre := preEvents_no_performCopy self opts env ner
  simp only [CopyFunc]
  by_cases hA : (ner.src_url.IsCloudUrl && ner.src_url.IsProvider) = true
  · rw [if_pos hA]
    exact ⟨⟨_, rfl⟩, by simp⟩
  rw [if_neg hA]
  by_cases hB : (ner.is_multi_src_request && !env.insistContainerOk) = true
  · rw [if_pos hB]
    exact ⟨⟨_, rfl⟩, by simp⟩
  rw [if_neg hB, if_neg (show ¬(opts.use_manifest &&
    WasSuccessful env.manifest ner.exp_src_url.GetUrlString) = true by simp [hman])]
  by_cases hD : (opts.perform_mv && ner.names_container &&
      ContainsWildcard ner.src_url.GetUrlString) = true
  · rw [if_pos hD]
    exact ⟨⟨_, rfl⟩, by simp⟩
  rw [if_neg hD]
  by_cases hE : env.dirFileConflict = true
  · rw [if_pos hE]
    exact ⟨⟨_, rfl⟩, fun s d => hpre s d⟩
  rw [if_neg hE]
  rcases hcond with hc | hc
  · rw [if_pos hc]
    exact ⟨⟨_, rfl⟩, fun s d => hpre s d⟩
  · by_cases hF : SrcDstSame ner.exp_src_url env.dst_url = true
    · rw [if_pos hF]
      exact ⟨⟨_, rfl⟩, fun s d => hpre s d⟩
    · rw [if_neg hF, if_pos hc]
      exact ⟨⟨_, rfl⟩, fun s d => hpre s d⟩

/-- C8 witness: copying gs://b/o onto itself is rejected before any
transfer. -/
theorem cp_c8_identity_or_versioned_dst_rejected_witness :
    (∃ m, (CopyFunc c8_self c8_opts c8_env c8_ner).result =
      CopyResult.raised (PyError.commandException m)) ∧
    ∀ s d, Event.performCopy s d ∉ (CopyFunc c8_self c8_opts c8_env c8_ner).events :=
  cp_c8_identity_or_versioned_dst_rejected c8_self c8_opts c8_env c8_ner
    (by decide) (Or.inl (by decide))

/-- C9 counterexample: the first item of the run has the provider-only
source URL gs://; the second item is valid (its CopyFunc on its own
returns ok).  The provider-only rejection propagates out of CopyFunc and,
with Apply called under fail_on_error, ends the run: the loop reports the
CommandException and no event of the second item (in particular no
transfer) ever happens, so the run does NOT continue with the remaining
items as the claim states. -/
theorem cp_c9_counterexample :
    (CopyFunc c9_self c9_opts c9_item2.env c9_item2.ner).result = CopyResult.ok ∧
    (ApplyLoop c9_self c9_opts [c9_item1, c9_item2] ⟨0, 0, 0⟩).failure =
      some (PyError.commandException
        "The cp command does not allow provider-only source URLs (gs://)") ∧
    (ApplyLoop c9_self c9_opts [c9_item1, c9_item2] ⟨0, 0, 0⟩).events = [] := by
  decide

/-- C9 amended: an item whose source is a bare provider-only cloud URL is
rejected with a CommandException before any naming resolution or transfer
(CopyFunc emits no events at all), and the rejection propagates out of
the per-item operation, ending the remaining run rather than continuing
with later items. -/
theorem cp_c9_provider_only_rejected (self : SelfState) (opts : OptsTuple)
    (env : CopyEnv) (ner : NameExpansionResult)
    (h : (ner.src_url.IsCloudUrl && ner.src_url.IsProvider) = true) :
    ∃ m, CopyFunc self opts env ner =
        ⟨[], CopyResult.raised (PyError.commandException m)⟩ ∧
      ∀ rest st, ApplyLoop self opts (⟨ner, env⟩ :: rest) st =
        ⟨st, [], some (PyError.commandException m)⟩ := by
  have hcf : CopyFunc self opts env ner =
      ⟨[], CopyResult.raised (PyError.commandException
        ("The " ++ (if opts.perform_mv then "mv" else self.command_name) ++
          " command does not allow provider-only source URLs (" ++
          ner.src_url.GetUrlString ++ ")"))⟩ := by
    simp only [CopyFunc]
    rw [if_pos h]
  refine ⟨_, hcf, fun rest st => ?_⟩
  simp only [ApplyLoop, hcf]
  simp [applyEvents]

/-- C9 amended witness: the provider-only source gs:// of the first
concrete item is rejected and the loop stops at it. -/
theorem cp_c9_provider_only_rejected_witness :
    ∃ m, CopyFunc c9_self c9_opts c9_item1.env c9_item1.ner =
        ⟨[], CopyResult.raised (PyError.commandException m)⟩ ∧
      ∀ rest st, ApplyLoop c9_self c9_opts (⟨c9_item1.ner, c9_item1.env⟩ :: rest) st =
        ⟨st, [], some (PyError.commandException m)⟩ :=
  cp_c9_provider_only_rejected c9_self c9_opts c9_item1.env c9_item1.ner (by decide)

/-- C10: when version-URL printing (-v) is requested and the copy ends in
a Skipped outcome (ItemExistsError from the backend or a server-side
no-clobber rejection), CopyFunc terminates with the unbound-name error on
result_url, which was never assigned on that path. -/
theorem cp_c10_skip_with_print_ver_name_error (self : SelfState) (opts : OptsTuple)
    (env : CopyEnv) (ner : NameExpansionResult)
    (hg : GuardsHold opts ⟨ner, env⟩)
    (hpv : opts.print_ver = true)
    (hskip : env.backend = BackendOutcome.itemExists ∨
      ∃ m, env.backend = BackendOutcome.otherError true m) :
    (CopyFunc self opts env ner).result =
      CopyResult.raised (PyError.nameError "result_url") := by
  obtain ⟨h1, h2, h3, h4, h5, h6, h7⟩ := hg
  rw [CopyFunc_reaches_try self opts env ner h1 h2 h3 h4 h5 h6 h7]
  dsimp only
  rcases hskip with hb | ⟨m, hb⟩ <;>
    simp [cpTryBlock, cpAfterTry, hb, hpv]

/-- C10 witness: cp -n -v with an existing destination ends in the
NameError on result_url. -/
theorem cp_c10_skip_with_print_ver_name_error_witness :
    (CopyFunc c10_self c10_opts c10_env c10_ner).result =
      CopyResult.raised (PyError.nameError "result_url") :=
  cp_c10_skip_with_print_ver_name_error c10_self c10_opts c10_env c10_ner
    (by decide) (by decide) (Or.inl (by decide))

theorem preEvents_fails (self : SelfState) (opts : OptsTuple) (env : CopyEnv)
    (ner : NameExpansionResult) :
    ((preEvents self opts env ner).map eventFails).sum = 0 := by
  unfold preEvents
  split_ifs <;> simp [eventFails]

/-- C3 counterexample: with continue-on-error enabled and -v requested, a
non-skip transfer error does increment the failure counter once, but the
per-item operation then terminates with a propagating NameError (the
result_url read at line 622 is unbound on this path), so the error path
does not complete normally and the run does not continue to later items,
contradicting the claim as stated for every item. -/
theorem cp_c3_counterexample :
    c3_self.continue_on_error = true ∧
    (CopyFunc c3_self c3_opts_v c3_env_err c3_ner).result =
      CopyResult.raised (PyError.nameError "result_url") ∧
    (applyEvents ⟨0, 0, 0⟩
      (CopyFunc c3_self c3_opts_v c3_env_err c3_ner).events).copy_failure_count = 1 ∧
    (ApplyLoop c3_self c3_opts_v [⟨c3_ner, c3_env_err⟩, c3_item2] ⟨0, 0, 0⟩).failure =
      some (PyError.nameError "result_url") := by
  decide

/-- C3 amended: for an item whose transfer raises a non-skip error, and
with version-URL printing (-v) not requested: under continue-on-error the
shared failure counter is incremented by exactly one, an error manifest
entry carrying the error message is recorded when a manifest is in use,
CopyFunc returns normally and the loop continues with the remaining
items; with continue-on-error disabled, an error manifest entry is
recorded when a manifest is in use, the error propagates out of CopyFunc
without touching the failure counter, and the loop stops at this item,
aborting the remaining run. -/
theorem cp_c3_transfer_error_handling (self : SelfState) (opts : OptsTuple)
    (env : CopyEnv) (ner : NameExpansionResult) (msg : String)
    (hg : GuardsHold opts ⟨ner, env⟩)
    (hb : env.backend = BackendOutcome.otherError false msg)
    (hpv : opts.print_ver = false) :
    (self.continue_on_error = true →
      (∀ st, (applyEvents st (CopyFunc self opts env ner).events).copy_failure_count =
        st.copy_failure_count + 1) ∧
      (opts.use_manifest = true →
        Event.setResult ner.exp_src_url.GetUrlString 0 ResultTag.error
          (some ("Error copying " ++ ner.src_url.GetUrlString ++ ": " ++ msg)) ∈
          (CopyFunc self opts env ner).events) ∧
      (CopyFunc self opts env ner).result = CopyResult.ok ∧
      (∀ rest st, (ApplyLoop self opts (⟨ner, env⟩ :: rest) st).failure =
        (ApplyLoop self opts rest
          (applyEvents st (CopyFunc self opts env ner).events)).failure)) ∧
    (self.continue_on_error = false →
      (opts.use_manifest = true →
        Event.setResult ner.exp_src_url.GetUrlString 0 ResultTag.error (some msg) ∈
          (CopyFunc self opts env ner).events) ∧
      (CopyFunc self opts env ner).result = CopyResult.raised (PyError.copyError msg) ∧
      (∀ st, (applyEvents st (CopyFunc self opts env ner).events).copy_failure_count =
        st.copy_failure_count) ∧
      (∀ rest st, (ApplyLoop self opts (⟨ner, env⟩ :: rest) st).failure =
        some (PyError.copyError msg))) := by
  obtain ⟨h1, h2, h3, h4, h5, h6, h7⟩ := hg
  have hcf := CopyFunc_reaches_try self opts env ner h1 h2 h3 h4 h5 h6 h7
  have hev : (CopyFunc self opts env ner).events =
      preEvents self opts env ner ++ (cpTryBlock self opts env ner).events := by
    rw [hcf]
  have hres : (CopyFunc self opts env ner).result =
      (cpTryBlock self opts env ner).result := by
    rw [hcf]
  constructor
  · intro hco
    have hok : (CopyFunc self opts env ner).result = CopyResult.ok := by
      rw [hres]
      simp [cpTryBlock, hb, hco, cpAfterTry, hpv]
    refine ⟨?_, ?_, hok, ?_⟩
    · intro st
      rw [applyEvents_fields]
      show st.copy_failure_count + _ = st.copy_failure_count + 1
      congr 1
      rw [hev, List.map_append, List.sum_append, preEvents_fails]
      simp only [cpTryBlock, hb, hco, cpAfterTry, hpv]
      split_ifs <;> simp_all [eventFails]
    · intro huse
      rw [hev]
      simp [cpTryBlock, hb, hco, huse]
    · intro rest st
      simp only [ApplyLoop, hok]
  · intro hco
    have hraised : (CopyFunc self opts env ner).result =
        CopyResult.raised (PyError.copyError msg) := by
      rw [hres]
      simp [cpTryBlock, hb, hco]
    refine ⟨?_, hraised, ?_, ?_⟩
    · intro huse
      rw [hev]
      simp [cpTryBlock, hb, hco, huse]
    · intro st
      rw [applyEvents_fields]
      show st.copy_failure_count + _ = st.copy_failure_count
      have : ((CopyFunc self opts env ner).events.map eventFails).sum = 0 := by
        rw [hev, List.map_append, List.sum_append, preEvents_fails]
        simp only [cpTryBlock, hb, hco]
        split_ifs <;> simp_all [eventFails]
      rw [this]
      exact Nat.add_zero _
    · intro rest st
      simp only [ApplyLoop, hraised]

/-- C3 witness: the failing transfer of gs://b/o increments the counter
by one under continue-on-error, and propagates as the copy error when
continue-on-error is disabled. -/
theorem cp_c3_transfer_error_handling_witness :
    (applyEvents ⟨0, 0, 0⟩
      (CopyFunc c3_self c3_opts c3_env_err c3_ner).events).copy_failure_count = 0 + 1 ∧
    (CopyFunc c3_self_nc c3_opts c3_env_err c3_ner).result =
      CopyResult.raised (PyError.copyError "network error") := by
  constructor
  · exact ((cp_c3_transfer_error_handling c3_self c3_opts c3_env_err c3_ner "network error"
      (by decide) (by decide) (by decide)).1 (by decide)).1 ⟨0, 0, 0⟩
  · exact (((cp_c3_transfer_error_handling c3_self_nc c3_opts c3_env_err c3_ner "network error"
      (by decide) (by decide) (by decide)).2 (by decide)).2).1

/-- C4: after the pool drains without a propagating per-item exception,
the run returns status 0 exactly when the aggregate failure count is
zero; when the count K is positive the run raises the single aggregate
CommandException whose message begins with K, yielding a non-zero run
status. -/
theorem cp_c4_exit_policy (self : SelfState) (opts : OptsTuple)
    (probe : GetBucketOutcome) (items : List WorkItem) (wallClock : ℚ)
    (hprobe : isOkB (computeAllVersions self.exp_dst_url probe) = true)
    (hfail : (ApplyLoop self opts items ⟨0, 0, 0⟩).failure = none) :
    ((RunCommand self opts probe items wallClock).outcome = RunOutcome.ok 0 ↔
      (RunCommand self opts probe items wallClock).totals.copy_failure_count = 0) ∧
    ((RunCommand self opts probe items wallClock).totals.copy_failure_count ≠ 0 →
      (RunCommand self opts probe items wallClock).outcome =
        RunOutcome.error (PyError.commandException
          (failMessage (RunCommand self opts probe items wallClock).totals.copy_failure_count)) ∧
      ∃ rest, failMessage
          (RunCommand self opts probe items wallClock).totals.copy_failure_count =
        toString (RunCommand self opts probe items wallClock).totals.copy_failure_count ++
          rest) := by
  rw [RunCommand_drained self opts probe items wallClock hprobe hfail]
  dsimp only
  by_cases hk : (applyEvents ⟨0, 0, 0⟩ (eventsOfItems self opts items)).copy_failure_count = 0
  · rw [if_neg (by simp [hk])]
    exact ⟨by simp [hk], fun hkk => absurd hk hkk⟩
  · rw [if_pos hk]
    refine ⟨⟨fun hco => by simp at hco, fun hc0 => absurd hc0 hk⟩, fun _ => ⟨rfl, ⟨_, rfl⟩⟩⟩

/-- C4 witness: an empty run exits with status 0; a run with one failing
item (tolerated under continue-on-error) raises the aggregate failure
describing one unsuccessful item. -/
theorem cp_c4_exit_policy_witness :
    (RunCommand c4_self c4_opts c4_probe [] 1).outcome = RunOutcome.ok 0 ∧
    (RunCommand c4_self_cont c4_opts c4_probe [c4_item] 1).outcome =
      RunOutcome.error (PyError.commandException (failMessage 1)) := by
  constructor
  · exact ((cp_c4_exit_policy c4_self c4_opts c4_probe [] 1
      (by decide) (by decide)).1).2 (by decide)
  · exact ((cp_c4_exit_policy c4_self_cont c4_opts c4_probe [c4_item] 1
      (by decide) (by decide)).2 (by decide)).1

/-- C7: after the pool drains, the aggregate elapsed time is the
wall-clock duration patched by the zero-elapsed floor: it is never zero,
and a zero wall-clock duration is replaced by the positive floor 0.01,
so the throughput division never divides by zero. -/
theorem cp_c7_elapsed_floor (self : SelfState) (opts : OptsTuple)
    (probe : GetBucketOutcome) (items : List WorkItem) (wallClock : ℚ)
    (hprobe : isOkB (computeAllVersions self.exp_dst_url probe) = true)
    (hfail : (ApplyLoop self opts items ⟨0, 0, 0⟩).failure = none) :
    (RunCommand self opts probe items wallClock).totals.total_elapsed_time =
      fixupElapsed wallClock ∧
    (RunCommand self opts probe items wallClock).totals.total_elapsed_time ≠ 0 ∧
    fixupElapsed 0 = 1 / 100 := by
  have hfx : ∀ t : ℚ, fixupElapsed t ≠ 0 := by
    intro t
    unfold fixupElapsed
    split_ifs with h
    · norm_num
    · exact h
  have hel : (RunCommand self opts probe items wallClock).totals.total_elapsed_time =
      fixupElapsed wallClock := by
    rw [RunCommand_drained self opts probe items wallClock hprobe hfail]
  exact ⟨hel, by rw [hel]; exact hfx wallClock, by norm_num [fixupElapsed]⟩

/-- C7 witness: a run whose wall-clock duration is exactly zero ends with
the elapsed counter at the floor value, which is nonzero. -/
theorem cp_c7_elapsed_floor_witness :
    (RunCommand c7_self c7_opts c7_probe [] 0).totals.total_elapsed_time =
      fixupElapsed 0 ∧
    (RunCommand c7_self c7_opts c7_probe [] 0).totals.total_elapsed_time ≠ 0 ∧
    fixupElapsed 0 = 1 / 100 :=
  cp_c7_elapsed_floor c7_self c7_opts c7_probe [] 0 (by decide) (by decide)

/-- C6: probing the destination versioning state: a probe reporting
versioning enabled turns all-versions enumeration on; a probe failing
with AccessDenied also turns it on instead of failing the run; and in
every other case in which the probe step completes, all-versions
enumeration stays off (a NotFound or other probe failure propagates as a
CommandException instead). -/
theorem cp_c6_versioning_probe (u : StorageUrl) (probe : GetBucketOutcome) :
    ((u.IsCloudUrl && u.IsBucket) = true → ∀ b, probe = GetBucketOutcome.found b →
      b.versioning = some true → computeAllVersions u probe = Except.ok true) ∧
    ((u.IsCloudUrl && u.IsBucket) = true → probe = GetBucketOutcome.accessDenied →
      computeAllVersions u probe = Except.ok true) ∧
    (∀ v, computeAllVersions u probe = Except.ok v → v = true →
      (u.IsCloudUrl && u.IsBucket) = true ∧
        (probe = GetBucketOutcome.accessDenied ∨
          ∃ b, probe = GetBucketOutcome.found b ∧ b.versioning = some true)) := by
  refine ⟨?_, ?_, ?_⟩
  · intro hu b hp hv
    simp [computeAllVersions, GetBucketWithVersioningConfig, hu, hp, hv]
  · intro hu hp
    simp [computeAllVersions, GetBucketWithVersioningConfig, hu, hp]
  · intro v hok hv
    subst hv
    by_cases hu : (u.IsCloudUrl && u.IsBucket) = true
    · cases probe with
      | found b =>
          refine ⟨hu, Or.inr ⟨b, rfl, ?_⟩⟩
          simp [computeAllVersions, GetBucketWithVersioningConfig, hu] at hok
          exact hok
      | accessDenied => exact ⟨hu, Or.inl rfl⟩
      | notFound =>
          simp [computeAllVersions, GetBucketWithVersioningConfig, hu] at hok
      | otherErr m =>
          simp [computeAllVersions, GetBucketWithVersioningConfig, hu] at hok
    · simp [computeAllVersions, GetBucketWithVersioningConfig, hu] at hok

/-- C6 witness: for the cloud bucket destination gs://db, an
enabled-versioning probe and an AccessDenied probe both turn all-versions
enumeration on. -/
theorem cp_c6_versioning_probe_witness :
    computeAllVersions c6_bucket_url (GetBucketOutcome.found ⟨some true⟩) =
      Except.ok true ∧
    computeAllVersions c6_bucket_url GetBucketOutcome.accessDenied = Except.ok true := by
  constructor
  · exact (cp_c6_versioning_probe c6_bucket_url
      (GetBucketOutcome.found ⟨some true⟩)).1 (by decide) ⟨some true⟩ rfl (by decide)
  · exact (cp_c6_versioning_probe c6_bucket_url
      GetBucketOutcome.accessDenied).2.1 (by decide) rfl

/-- C5 counterexample: a run over one item whose backend reports elapsed
time 5 and 10 bytes, with wall-clock duration 3: after the run the
aggregate elapsed-time counter equals the wall-clock value 3, not the
per-item sum 5, because line 732 overwrites the accumulated value with
end_time - start_time after the pool drains.  The aggregate byte counter
does equal the per-item sum. -/
theorem cp_c5_counterexample :
    itemBackendElapsedSum [c5_item] = 5 ∧
    (RunCommand c5_self c5_opts c5_probe [c5_item] 3).totals.total_elapsed_time = 3 ∧
    (RunCommand c5_self c5_opts c5_probe [c5_item] 3).totals.total_elapsed_time ≠
      itemBackendElapsedSum [c5_item] := by
  have hfail : (ApplyLoop c5_self c5_opts [c5_item] ⟨0, 0, 0⟩).failure = none := by decide
  have hrc := RunCommand_drained c5_self c5_opts c5_probe [c5_item] 3 (by decide) hfail
  have hsum : itemBackendElapsedSum [c5_item] = 5 := by
    simp [itemBackendElapsedSum, c5_item, backendElapsed]
  have hev3 : (RunCommand c5_self c5_opts c5_probe [c5_item] 3).totals.total_elapsed_time = 3 := by
    rw [hrc]
    show fixupElapsed 3 = 3
    norm_num [fixupElapsed]
  refine ⟨hsum, hev3, ?_⟩
  rw [hev3, hsum]
  norm_num

/-- C5 amended: for a run over items that all reach the transfer step and
complete without a propagating exception, the aggregate byte counter
equals the sum of the per-item byte counts produced by the backend, with
each item contributing exactly once and independently of the submission
order (any permutation of the items yields the same sum); the aggregate
elapsed-time counter, however, ends as the wall-clock duration (patched
by the zero floor), because line 732 overwrites the per-item
accumulation. -/
theorem cp_c5_aggregate_totals (self : SelfState) (opts : OptsTuple)
    (probe : GetBucketOutcome) (items : List WorkItem) (wallClock : ℚ)
    (hprobe : isOkB (computeAllVersions self.exp_dst_url probe) = true)
    (hitems : ∀ item ∈ items, GuardsHold opts item ∧
      (CopyFunc self opts item.env item.ner).result = CopyResult.ok) :
    (RunCommand self opts probe items wallClock).totals.total_bytes_transferred =
      itemBackendBytesSum items ∧
    (RunCommand self opts probe items wallClock).totals.total_elapsed_time =
      fixupElapsed wallClock ∧
    ∀ items2, items.Perm items2 → itemBackendBytesSum items2 = itemBackendBytesSum items := by
  have hfail := ApplyLoop_all_ok self opts items ⟨0, 0, 0⟩ fun i hi => (hitems i hi).2
  have hrc := RunCommand_drained self opts probe items wallClock hprobe hfail
  obtain ⟨hb, he⟩ := eventsOfItems_stats self opts items hitems
  refine ⟨?_, ?_, ?_⟩
  · rw [hrc]
    show (applyEvents ⟨0, 0, 0⟩ (eventsOfItems self opts items)).total_bytes_transferred =
      itemBackendBytesSum items
    rw [applyEvents_fields]
    show 0 + _ = _
    rw [hb]
    exact Nat.zero_add _
  · rw [hrc]
  · intro items2 hp
    unfold itemBackendBytesSum
    exact (List.Perm.sum_eq (hp.map fun i => backendBytes i.env.backend)).symm

/-- C5 witness for the amended statement, at the same concrete run as the
counterexample. -/
theorem cp_c5_aggregate_totals_witness :
    (RunCommand c5_self c5_opts c5_probe [c5_item] 3).totals.total_bytes_transferred =
      itemBackendBytesSum [c5_item] ∧
    (RunCommand c5_self c5_opts c5_probe [c5_item] 3).totals.total_elapsed_time =
      fixupElapsed 3 ∧
    ∀ items2, List.Perm [c5_item] items2 →
      itemBackendBytesSum items2 = itemBackendBytesSum [c5_item] :=
  cp_c5_aggregate_totals c5_self c5_opts c5_probe [c5_item] 3 (by decide)
    fun item hi => by
      rw [List.mem_singleton] at hi
      subst hi
      exact ⟨by decide, by decide⟩
